import Mathlib

/-!
Verification of the signal pipeline of the AI quality-control dashboard.

The development embeds, as pure Lean functions and explicit state machines,
the two stateful flows of the repository:

* the maintenance panel `MaintenanceStats` (enhanced variant): its component
  state, the simulated maintenance fetch run from the effect, the numeric
  threshold input whose change handler stores `Number(e.target.value)`, and
  the rendered alert condition `riskScore > alertThreshold`;
* the defect-detection widget `DefectDisplay`, in both its enhanced variant
  (null-file guard, loading flag, `disabled={isLoading}` button, try/catch
  with a `finally` resetting the flag) and its basic variant (no guard, no
  error handling);
* the Risk History Store of the specification, which the source does not
  implement (the panel ships a hard-coded history array), modelled from the
  spec's contract.

JavaScript numbers appearing in the embedded fragment are integers; a JS
number is modelled as `Option Int`, `none` standing for `NaN` (the one
non-integer value the embedded code can produce, via `Number("garbage")`),
and `>` on JS numbers is false whenever either side is `NaN`.
-/

/-- A JS number as produced by the embedded code: an integer, or `NaN`. -/
abbrev JSNum : Type := Option Int

/-- Strict `>` of JavaScript: false when either operand is `NaN`. -/
def jsGtNum (a : Int) (b : JSNum) : Bool :=
  match b with
  | some t => a > t
  | none => false

/-- Value of a decimal digit character, if it is one. -/
def digitVal (c : Char) : Option Nat :=
  if c.toNat ≥ 48 ∧ c.toNat ≤ 57 then some (c.toNat - 48) else none

/-- Decimal reading of a digit string; `none` when empty or not all digits. -/
def parseDec (l : List Char) : Option Nat :=
  match l with
  | [] => none
  | _ :: _ =>
      l.foldl (fun acc c => acc.bind fun a => (digitVal c).map fun d => 10 * a + d)
        (some 0)

/-- JavaScript `Number(s)` on the strings a `type="number"` input can hand to
`onChange` in the embedded fragment: the empty string converts to `0`, an
integer-valued string (optionally signed) to its value, anything else to
`NaN` (`none`). -/
def jsNumber (s : String) : JSNum :=
  match s.data with
  | [] => some 0
  | '-' :: rest => (parseDec rest).map fun n => -(n : Int)
  | l => (parseDec l).map fun n => (n : Int)

/-- One point of the `history` array of the simulated maintenance response. -/
structure HistoryPoint where
  date : String
  riskScore : Int
deriving DecidableEq, Repr

/-- The simulated maintenance API response object built by
`fetchMaintenanceData` in the enhanced `MaintenanceStats`. -/
structure MaintenanceResponse where
  nextMaintenanceDate : String
  riskScore : Int
  downtime : String
  lastMaintenanceDate : String
  history : List HistoryPoint
deriving DecidableEq, Repr

/-- The constant response the simulated fetch resolves with, verbatim from
the source of the enhanced `MaintenanceStats`. -/
def simulatedResponse : MaintenanceResponse :=
  { nextMaintenanceDate := "2025-03-15"
    riskScore := 80
    downtime := "15 hours"
    lastMaintenanceDate := "2024-12-01"
    history :=
      [ { date := "2024-01-01", riskScore := 30 }
      , { date := "2024-04-01", riskScore := 45 }
      , { date := "2024-07-01", riskScore := 60 }
      , { date := "2024-10-01", riskScore := 75 }
      , { date := "2025-01-01", riskScore := 80 } ] }

/-- Component state of the enhanced `MaintenanceStats`: the four `useState`
hooks `maintenanceData`, `loading`, `error`, `alertThreshold`. -/
structure MSState where
  maintenanceData : Option MaintenanceResponse
  loading : Bool
  error : Option String
  alertThreshold : JSNum

/-- Initial hook values: no data, loading, no error, threshold 70. -/
def initMSState : MSState :=
  { maintenanceData := none
    loading := true
    error := none
    alertThreshold := some 70 }

/-- Effect of a resolving simulated fetch: `setMaintenanceData(response)`
then `setLoading(false)`; applied unconditionally, there is no generation
token in the source. -/
def resolveFetch (st : MSState) : MSState :=
  { st with maintenanceData := some simulatedResponse, loading := false }

/-- The threshold input's change handler,
`onChange={(e) => setAlertThreshold(Number(e.target.value))}`: the converted
value is stored with no range check. -/
def onThresholdChange (st : MSState) (value : String) : MSState :=
  { st with alertThreshold := jsNumber value }

/-- Whether the alert paragraph renders: the component must be past the
loading and error early returns, and the JSX guard is
`maintenanceData.riskScore > alertThreshold`. -/
def renderAlert (st : MSState) : Bool :=
  if st.loading then false
  else if st.error.isSome then false
  else
    match st.maintenanceData with
    | some d => jsGtNum d.riskScore st.alertThreshold
    | none => false

/-- The maintenance controller with its set of in-flight simulated fetches:
the effect body spawns a fetch and nothing cancels a superseded one. Tasks
are identified by a generation number carried only by the model; the source
attaches no datum to a task, every fetch resolves with
`simulatedResponse`. -/
structure MSMachine where
  st : MSState
  pending : List Nat

/-- An effect run (mount, or `equipmentId` change): a new fetch is begun;
the prior in-flight fetch, if any, is left pending (no cleanup function in
the source). -/
def effectRun (m : MSMachine) (g : Nat) : MSMachine :=
  { m with pending := m.pending ++ [g] }

/-- Resolution of in-flight fetch `g`: its callbacks run, applying
`resolveFetch` to the component state with no staleness check. -/
def resolveTask (m : MSMachine) (g : Nat) : MSMachine :=
  if g ∈ m.pending then
    { st := resolveFetch m.st, pending := m.pending.erase g }
  else m

/-- An uploaded file: a binary blob, abstracted to its byte size (the only
attribute the embedded control flow can depend on). A `File` object of size
zero is still truthy in JavaScript. -/
structure Blob where
  size : Nat
deriving DecidableEq, Repr

/-- Component state of the enhanced `DefectDisplay`: the `useState` hooks
`file`, `result`, `imagePreview`, `isLoading`. -/
structure DDState where
  file : Option Blob
  result : Option String
  imagePreview : Option String
  isLoading : Bool
deriving DecidableEq, Repr

/-- Initial hook values of the enhanced `DefectDisplay`. -/
def initDDState : DDState :=
  { file := none, result := none, imagePreview := none, isLoading := false }

/-- How the `fetch` of a submission settles, as observed by the handler:
a 2xx response whose JSON carries `defect_detected`, a non-2xx response
(`response.ok` false), or a rejected fetch (transport failure). -/
inductive FetchOutcome where
  | ok (defectDetected : Bool)
  | httpError
  | networkError
deriving DecidableEq, Repr

/-- The alert text of the null-file guard in the enhanced handler. -/
def noFileAlert : String := "Please select an image first."

/-- The result text stored by the enhanced handler's `catch` block. -/
def detectErrorResult : String := "Error detecting defects. Please try again."

/-- First, synchronous half of the enhanced `handleSubmit`, up to the
`fetch`: the `!file` guard fires an alert and returns before any network
call; otherwise `setIsLoading(true)` runs and the request for the file is
issued. Returns the new state, the requests issued, and the alerts shown. -/
def beginSubmit (st : DDState) : DDState × List Blob × List String :=
  match st.file with
  | none => (st, [], [noFileAlert])
  | some f => ({ st with isLoading := true }, [f], [])

/-- Settling of the enhanced `handleSubmit`'s awaited `fetch`: a 2xx
response stores the verdict text, a non-2xx response throws into the
`catch` which stores the error text, a rejected fetch lands in the same
`catch`; the `finally` block resets `isLoading` on every path. -/
def settleSubmit (st : DDState) (o : FetchOutcome) : DDState :=
  match o with
  | .ok d =>
      { st with
        result := some (if d then "Defect Detected" else "No Defect")
        isLoading := false }
  | .httpError => { st with result := some detectErrorResult, isLoading := false }
  | .networkError => { st with result := some detectErrorResult, isLoading := false }

/-- The enhanced `handleSubmit` as one function of the state and the fetch
outcome: guard, then begin, then settle. When the guard fires, no request
is issued and the outcome is irrelevant. -/
def handleSubmit (st : DDState) (o : FetchOutcome) : DDState × List Blob × List String :=
  match st.file with
  | none => (st, [], [noFileAlert])
  | some f => (settleSubmit { st with isLoading := true } o, [f], [])

/-- A click on the upload button: the button carries
`disabled={isLoading}`, so while a request is in flight the click does not
reach `handleSubmit` at all; otherwise the submission begins. -/
def clickUpload (st : DDState) : DDState × List Blob × List String :=
  if st.isLoading then (st, [], []) else beginSubmit st

/-- Component state of the basic `DefectDisplay` (the variant under
`src/frontend`): hooks `file` and `result` only. -/
structure BasicDDState where
  file : Option Blob
  result : Option String
deriving DecidableEq, Repr

/-- How the basic handler's `fetch` settles. The basic handler never reads
`response.ok`, so a resolved response of any status reaches
`response.json()`; `jsonDefectField` is the `defect_detected` field of that
JSON, absent (`undefined`, falsy) when the body carries none. A rejected
fetch rejects the un-caught `async` function. -/
inductive BasicOutcome where
  | response (jsonDefectField : Option Bool)
  | networkError
deriving DecidableEq, Repr

/-- The basic `handleSubmit`: no guard (the request is issued even when
`file` is null), no `response.ok` check, no `catch`. On a resolved response
the truthiness of `data.defect_detected` picks the verdict text; on a
rejected fetch the function aborts with an unhandled rejection and the
component state is left untouched. Returns the new state and the requests
issued (the appended `file` field, possibly null). -/
def basicHandleSubmit (st : BasicDDState) (o : BasicOutcome) :
    BasicDDState × List (Option Blob) :=
  match o with
  | .response d =>
      ({ st with
         result := some (if d.getD false then "Defect Detected" else "No Defect") },
       [st.file])
  | .networkError => (st, [st.file])

/-- Modelled from the spec: an `EquipmentRiskSample` of the Risk History
Store (§3, §4.3), which the source does not implement (the maintenance
panel ships only a hard-coded `history` array). Dates are modelled as
naturals in chronological order. -/
structure RiskSample where
  timestamp : Nat
  riskScore : Int
deriving DecidableEq, Repr

/-- Modelled from the spec: the error of a failed `append` — the store
"must reject corruption rather than silently reorder". -/
inductive StoreError where
  | outOfOrder
deriving DecidableEq, Repr

/-- Modelled from the spec: the Risk History Store, an ordered per-equipment
time series keyed by equipment id. -/
def RiskStore : Type := String → List RiskSample

/-- Modelled from the spec: the store before any history exists. -/
def emptyStore : RiskStore := fun _ => []

/-- Replace one equipment's history in the store. -/
def storeSet (st : RiskStore) (id : String) (h : List RiskSample) : RiskStore :=
  fun i => if i = id then h else st i

/-- Modelled from the spec: `append(equipmentId, sample)` (§4.3) — appends
to that equipment's ordered history, creating it on the first sample; fails
with `OutOfOrderError` when the sample's timestamp precedes the last
recorded sample's timestamp, in which case the sample is discarded. -/
def append (st : RiskStore) (id : String) (s : RiskSample) :
    Except StoreError RiskStore :=
  match (st id).getLast? with
  | some last =>
      if s.timestamp < last.timestamp then .error .outOfOrder
      else .ok (storeSet st id (st id ++ [s]))
  | none => .ok (storeSet st id (st id ++ [s]))

/-- Modelled from the spec: `currentRisk(equipmentId)` (§4.3) — the most
recently appended sample's score, or absent when no history exists yet. -/
def currentRisk (st : RiskStore) (id : String) : Option Int :=
  ((st id).getLast?).map fun s => s.riskScore

/-- The store a caller holds after an `append` attempt: the new store on
success, the old store unchanged on failure (the sample is discarded). -/
def applyAppend (st : RiskStore) (id : String) (s : RiskSample) : RiskStore :=
  match append st id s with
  | .ok st' => st'
  | .error _ => st

/-- A sequence of `append` calls for one equipment id, stopping at the
first failure. -/
def appendTrace (st : RiskStore) (id : String) : List RiskSample → Except StoreError RiskStore
  | [] => .ok st
  | s :: rest =>
      match append st id s with
      | .ok st' => appendTrace st' id rest
      | .error e => .error e

/-- C1: the maintenance panel produces the alert exactly when the current
risk score is strictly greater than the stored threshold; a score equal to
the threshold shows no alert and a score of threshold + 1 shows one. -/
theorem c1_alert_strict_gt (st : MSState) (d : MaintenanceResponse) (t : Int)
    (hload : st.loading = false) (herr : st.error = none)
    (hd : st.maintenanceData = some d) (ht : st.alertThreshold = some t) :
    (renderAlert st = true ↔ t < d.riskScore) ∧
      (d.riskScore = t → renderAlert st = false) ∧
      (d.riskScore = t + 1 → renderAlert st = true) := by
  unfold renderAlert
  rw [hload, herr, hd, ht]
  simp [jsGtNum]
  omega

/-- C1 witness: the state after the simulated fetch (risk score 80,
threshold 70) alerts, and would not at an equal score. -/
theorem c1_alert_strict_gt_witness :
    (renderAlert (resolveFetch initMSState) = true ↔
        (70 : Int) < simulatedResponse.riskScore) ∧
      (simulatedResponse.riskScore = 70 →
        renderAlert (resolveFetch initMSState) = false) ∧
      (simulatedResponse.riskScore = 70 + 1 →
        renderAlert (resolveFetch initMSState) = true) :=
  c1_alert_strict_gt (resolveFetch initMSState) simulatedResponse 70 rfl rfl rfl rfl

/-- C4 counterexample: entering the out-of-range value 150 in the threshold
input stores 150 as the new threshold — the prior threshold (70) is not
retained and no failure occurs, the change handler being a total function
into the component state with no error outcome. -/
theorem c4_threshold_unvalidated_cex :
    (onThresholdChange initMSState "150").alertThreshold = some 150 ∧
      (onThresholdChange initMSState "150").alertThreshold ≠ initMSState.alertThreshold := by
  decide

/-- C4 amended: the threshold change handler performs no range validation —
for every input string that `Number` converts to a value `n`, including
values outside `[0,100]`, the stored threshold becomes `n`. -/
theorem c4_threshold_stores_any_value (st : MSState) (s : String) (n : Int)
    (h : jsNumber s = some n) :
    (onThresholdChange st s).alertThreshold = some n := by
  simp [onThresholdChange, h]

/-- C4 amended witness: the out-of-range input 150 is stored verbatim. -/
theorem c4_threshold_stores_any_value_witness :
    (onThresholdChange initMSState "150").alertThreshold = some 150 :=
  c4_threshold_stores_any_value initMSState "150" 150 (by decide)

/-- C10: clearing the numeric threshold input hands the empty string to the
change handler, `Number("")` is 0, so the stored threshold becomes 0 and the
alert renders for every positive current risk score. -/
theorem c10_cleared_input_zero_threshold (st : MSState) (d : MaintenanceResponse)
    (hd : st.maintenanceData = some d) (hload : st.loading = false)
    (herr : st.error = none) (hpos : 0 < d.riskScore) :
    (onThresholdChange st "").alertThreshold = some 0 ∧
      renderAlert (onThresholdChange st "") = true := by
  constructor
  · simp [onThresholdChange, jsNumber]
  · unfold renderAlert onThresholdChange
    simp [hd, hload, herr, jsNumber, jsGtNum, hpos]

/-- C10 witness: after the simulated fetch (risk score 80), clearing the
input yields threshold 0 and the alert shows. -/
theorem c10_cleared_input_zero_threshold_witness :
    (onThresholdChange (resolveFetch initMSState) "").alertThreshold = some 0 ∧
      renderAlert (onThresholdChange (resolveFetch initMSState) "") = true :=
  c10_cleared_input_zero_threshold (resolveFetch initMSState) simulatedResponse
    rfl rfl rfl (by decide)

/-- Applying the simulated fetch result twice is the same as applying it
once: every fetch resolves with the same constant response. -/
theorem resolveFetch_idem (st : MSState) :
    resolveFetch (resolveFetch st) = resolveFetch st := rfl

/-- Once some fetch result has been applied to the component state, a
further task resolution leaves that state unchanged. -/
theorem resolveTask_st_stable (m : MSMachine) (g : Nat) (s : MSState)
    (h : m.st = resolveFetch s) : (resolveTask m g).st = m.st := by
  unfold resolveTask
  split
  · simp only [h, resolveFetch_idem]
  · rfl

/-- C2: on the maintenance controller, submitting fetch `b` while fetch `a`
is pending and letting `a` resolve only after `b` has resolved leaves the
component state exactly as `b`'s resolution set it: `a`'s late resolution
causes no state transition. In the source this holds not through a
generation guard (there is none) but because every simulated fetch resolves
with the same constant response, so the late application is a state-level
no-op. -/
theorem c2_late_result_no_transition (m : MSMachine) (a b : Nat) :
    (resolveTask (resolveTask (effectRun (effectRun m a) b) b) a).st
        = (resolveTask (effectRun (effectRun m a) b) b).st ∧
      (resolveTask (effectRun (effectRun m a) b) b).st.maintenanceData
        = some simulatedResponse := by
  have hb : b ∈ (effectRun (effectRun m a) b).pending := by
    simp [effectRun]
  have h3 : (resolveTask (effectRun (effectRun m a) b) b).st
      = resolveFetch (effectRun (effectRun m a) b).st := by
    simp [resolveTask, hb]
  exact ⟨resolveTask_st_stable _ a _ h3, by rw [h3]; rfl⟩

/-- C5 counterexample: a selected zero-byte blob is a truthy `File` object,
so the `!file` guard of the enhanced handler does not fire and the request
for the empty blob is issued to the detect endpoint — the network call is
attempted. -/
theorem c5_empty_blob_request_issued_cex :
    (handleSubmit { initDDState with file := some { size := 0 } } (.ok false)).2.1
        = [{ size := 0 }] ∧
      ([{ size := (0 : Nat) }] : List Blob) ≠ [] := by
  decide

/-- C5 amended: submitting with no file selected (a null `file`) fails with
the validation alert before any network call: no request is issued, the
state is unchanged, and the guard's alert is the only output. A selected
but empty (zero-byte) blob is not caught by this guard. -/
theorem c5_null_file_no_request (st : DDState) (o : FetchOutcome)
    (h : st.file = none) :
    handleSubmit st o = (st, [], [noFileAlert]) := by
  unfold handleSubmit
  rw [h]

/-- C5 amended witness: the initial state has no file; submitting issues no
request and shows the alert. -/
theorem c5_null_file_no_request_witness :
    handleSubmit initDDState (.ok true) = (initDDState, [], [noFileAlert]) :=
  c5_null_file_no_request initDDState (.ok true) rfl

/-- C7: while a detection request is in flight the upload button is
disabled, so a click submits nothing: no second gateway call is begun, no
alert fires, and the component state — including the pending request's
bookkeeping — is untouched. -/
theorem c7_submit_while_pending_rejected (st : DDState)
    (h : st.isLoading = true) :
    clickUpload st = (st, [], []) := by
  simp [clickUpload, h]

/-- C7 witness: a click during an in-flight request is a no-op. -/
theorem c7_submit_while_pending_rejected_witness :
    clickUpload { initDDState with isLoading := true }
      = ({ initDDState with isLoading := true }, [], []) :=
  c7_submit_while_pending_rejected { initDDState with isLoading := true } rfl

/-- C8 counterexample: in the basic defect display, a gateway call that
fails at the transport layer (the request was issued: the file field was
appended and posted) leaves the component's `result` absent — the rejection
of the un-caught `async` handler is swallowed and no Failed state is
observable to the component. -/
theorem c8_basic_error_swallowed_cex :
    (basicHandleSubmit { file := some { size := 5 }, result := none } .networkError).2
        = [some { size := 5 }] ∧
      (basicHandleSubmit { file := some { size := 5 }, result := none } .networkError).1.result
        = none := by
  decide

/-- C8 amended: in the enhanced defect display, every failing gateway call
— a non-2xx response as well as a transport failure — lands in the `catch`
block and surfaces as an observable stored error result (a generic failure
message; the specific error kind is only logged), with the loading flag
cleared; the basic defect display surfaces nothing. -/
theorem c8_enhanced_errors_surfaced (st : DDState) (f : Blob)
    (h : st.file = some f) :
    (handleSubmit st .httpError).1.result = some detectErrorResult ∧
      (handleSubmit st .httpError).1.isLoading = false ∧
      (handleSubmit st .networkError).1.result = some detectErrorResult ∧
      (handleSubmit st .networkError).1.isLoading = false := by
  simp [handleSubmit, settleSubmit, h]

/-- C8 amended witness: with a file selected, both failure modes store the
error result. -/
theorem c8_enhanced_errors_surfaced_witness :
    (handleSubmit { initDDState with file := some { size := 5 } } .httpError).1.result
        = some detectErrorResult ∧
      (handleSubmit { initDDState with file := some { size := 5 } } .httpError).1.isLoading
        = false ∧
      (handleSubmit { initDDState with file := some { size := 5 } } .networkError).1.result
        = some detectErrorResult ∧
      (handleSubmit { initDDState with file := some { size := 5 } } .networkError).1.isLoading
        = false :=
  c8_enhanced_errors_surfaced { initDDState with file := some { size := 5 } }
    { size := 5 } rfl

/-- C9: in the enhanced defect display, every submission that starts a
gateway call (a file is selected) ends with the loading flag false once the
call settles, on success, non-2xx response and transport failure alike —
the `finally` block runs on every path, so the button never remains stuck
disabled. -/
theorem c9_loading_reset_after_settle (st : DDState) (f : Blob)
    (o : FetchOutcome) (h : st.file = some f) :
    ((handleSubmit st o).1).isLoading = false := by
  unfold handleSubmit
  rw [h]
  cases o <;> simp [settleSubmit]

/-- A successful `append` extends exactly the addressed equipment's history
by the new sample. -/
theorem append_ok_hist (st : RiskStore) (id : String) (s : RiskSample)
    (st' : RiskStore) (h : append st id s = .ok st') :
    st' id = st id ++ [s] := by
  unfold append at h
  split at h
  · split at h
    · simp at h
    · injection h with h'
      rw [← h']
      simp [storeSet]
  · injection h with h'
    rw [← h']
    simp [storeSet]

/-- After a successful `append`, the current risk is the appended sample's
score. -/
theorem append_ok_currentRisk (st : RiskStore) (id : String) (s : RiskSample)
    (st' : RiskStore) (h : append st id s = .ok st') :
    currentRisk st' id = some s.riskScore := by
  unfold currentRisk
  rw [append_ok_hist st id s st' h, List.getLast?_concat]
  rfl

/-- After a successful run of `append` calls, the current risk is the score
of the last sample appended. -/
theorem appendTrace_ok_currentRisk (id : String) :
    ∀ (samples : List RiskSample) (st st' : RiskStore), samples ≠ [] →
      appendTrace st id samples = .ok st' →
      currentRisk st' id = samples.getLast?.map fun s => s.riskScore := by
  intro samples
  induction samples with
  | nil => intro st st' hne; exact absurd rfl hne
  | cons s rest ih =>
    intro st st' _ h
    unfold appendTrace at h
    cases ha : append st id s with
    | error e => rw [ha] at h; simp at h
    | ok st1 =>
      rw [ha] at h
      cases rest with
      | nil =>
        unfold appendTrace at h
        injection h with h'
        rw [← h']
        simpa using append_ok_currentRisk st id s st1 ha
      | cons r rs =>
        rw [ih st1 st' (by simp) h, List.getLast?_cons_cons]

/-- C3: appending a sample whose timestamp precedes the last recorded
sample's timestamp fails with the out-of-order error, the sample is not
stored, and the current risk for that equipment is unchanged by the failed
append. -/
theorem c3_out_of_order_append_rejected (st : RiskStore) (id : String)
    (s last : RiskSample) (hl : (st id).getLast? = some last)
    (hlt : s.timestamp < last.timestamp) :
    append st id s = .error .outOfOrder ∧
      currentRisk (applyAppend st id s) id = currentRisk st id := by
  have ha : append st id s = .error .outOfOrder := by
    unfold append
    rw [hl]
    simp [hlt]
  refine ⟨ha, ?_⟩
  unfold applyAppend
  rw [ha]

/-- C3 witness: on a history ending at timestamp 5, appending a sample
timestamped 3 is rejected and the current risk stays 30. -/
theorem c3_out_of_order_append_rejected_witness :
    append (storeSet emptyStore "E1" [{ timestamp := 5, riskScore := 30 }]) "E1"
        { timestamp := 3, riskScore := 99 }
      = .error .outOfOrder ∧
    currentRisk
        (applyAppend (storeSet emptyStore "E1" [{ timestamp := 5, riskScore := 30 }]) "E1"
          { timestamp := 3, riskScore := 99 }) "E1"
      = currentRisk (storeSet emptyStore "E1" [{ timestamp := 5, riskScore := 30 }]) "E1" :=
  c3_out_of_order_append_rejected
    (storeSet emptyStore "E1" [{ timestamp := 5, riskScore := 30 }]) "E1"
    { timestamp := 3, riskScore := 99 } { timestamp := 5, riskScore := 30 }
    rfl (by decide)

/-- C6: for every equipment id, after any non-empty run of successful
appends the current risk equals the score of the most recently appended
sample, and before the first append it is absent. -/
theorem c6_current_risk_is_last_appended (id : String) (st st' : RiskStore)
    (samples : List RiskSample) (hne : samples ≠ [])
    (h : appendTrace st id samples = .ok st') :
    currentRisk st' id = (samples.getLast?.map fun s => s.riskScore) ∧
      currentRisk emptyStore id = none :=
  ⟨appendTrace_ok_currentRisk id samples st st' hne h, rfl⟩

/-- C6 witness: two successful appends (scores 30 then 80) leave the
current risk at 80; the empty store has none. -/
theorem c6_current_risk_is_last_appended_witness :
    currentRisk
        (storeSet (storeSet emptyStore "E1" [{ timestamp := 1, riskScore := 30 }]) "E1"
          [{ timestamp := 1, riskScore := 30 }, { timestamp := 2, riskScore := 80 }]) "E1"
      = some 80 ∧
    currentRisk emptyStore "E1" = none :=
  c6_current_risk_is_last_appended "E1" emptyStore
    (storeSet (storeSet emptyStore "E1" [{ timestamp := 1, riskScore := 30 }]) "E1"
      [{ timestamp := 1, riskScore := 30 }, { timestamp := 2, riskScore := 80 }])
    [{ timestamp := 1, riskScore := 30 }, { timestamp := 2, riskScore := 80 }]
    (by decide) rfl

/-- C9 witness: a successful call settles with the loading flag false. -/
theorem c9_loading_reset_after_settle_witness :
    ((handleSubmit { initDDState with file := some { size := 5 } } (.ok true)).1).isLoading
      = false :=
  c9_loading_reset_after_settle { initDDState with file := some { size := 5 } }
    { size := 5 } (.ok true) rfl
